import Mathlib

/-
Verification of the json2csv flattening core (src/json2csv.py).

The embedding models the JSON data the flattener consumes, the key
composition and validation rules, the recursive flattener, the top-level
document dispatcher, the per-file accumulation loop of `run`, and the CSV
writer.  Python generators yield pairs lazily and may raise mid-stream;
each generator-valued function is therefore modelled as returning the list
of pairs produced before any failure together with an optional error
(`List (String × Prim) × Option FlatError`).  The index-format string is
modelled at its use site: `flatten_json` only ever calls
`index_format.format(index)`, which either returns a string or raises
`ValueError` (caught), so it is embedded as a function `Nat → Option String`
where `none` stands for the raised `ValueError`.
-/

/-- JSON scalar values.  Numbers are modelled as integers: the flattener
never inspects a numeric value, it only passes it through unchanged, so
this loses nothing relevant to flattening. -/
inductive Prim where
  | null
  | bool (b : Bool)
  | num (n : Int)
  | str (s : String)
deriving DecidableEq

/-- Parsed JSON values.  Objects keep their fields as an ordered list,
matching Python dict insertion-order iteration (`data.items()`); `json.load`
guarantees the keys are strings, so the `isinstance(key, str)` guard of
`flatten_json` can never fire in this model. -/
inductive Json where
  | null
  | bool (b : Bool)
  | num (n : Int)
  | str (s : String)
  | arr (items : List Json)
  | obj (fields : List (String × Json))

/-- Embed a scalar into `Json`. -/
def Json.ofPrim : Prim → Json
  | .null => .null
  | .bool b => .bool b
  | .num n => .num n
  | .str s => .str s

/-- `MAX_KEY_LENGTH = 256` (src/json2csv.py line 63). -/
def MAX_KEY_LENGTH : Nat := 256

/-- `CSV_HEADERS = ["key", "value"]` (line 62). -/
def CSV_HEADERS : List String := ["key", "value"]

/-- The configuration threaded through flattening: `separator`,
`index_format` (modelled as `Nat → Option String`, `none` = the format
raises `ValueError`), `validate_keys`. -/
structure Config where
  separator : String
  indexFormat : Nat → Option String
  validateKeys : Bool

/-- The `ValueError` kinds `flatten_json`, `process_json_data` and
`write_csv` can raise. -/
inductive FlatError where
  | keyTooLong (key : String)
  | keyInvalidChars (key : String)
  | nonDictElement
  | topLevelShape
  | emptyOutput
deriving DecidableEq

/-- A character from the set the code checks: comma, LF, CR
(lines 117 and 193). -/
def isBadChar (c : Char) : Bool := c = ',' || c = '\n' || c = '\r'

/-- `any(c in key for c in {",", "\n", "\r"})`: some character of the
string is a comma, LF or CR. -/
def hasBadChar (s : String) : Bool := s.data.any isBadChar

/-- Key composition (lines 186 and 205):
`f"{parent_key}{separator}{key}" if parent_key else key`.  Python string
truthiness: the guard is false exactly for the empty string. -/
def composeKey (parentKey sep key : String) : String :=
  if parentKey = "" then key else parentKey ++ sep ++ key

/-- The validation block of the dict branch (lines 188-194): when
`validate_keys` is set, a key longer than `MAX_KEY_LENGTH` raises first,
then a key containing comma/LF/CR raises. -/
def validateKey (cfg : Config) (key : String) : Option FlatError :=
  if cfg.validateKeys then
    if MAX_KEY_LENGTH < key.length then some (FlatError.keyTooLong key)
    else if hasBadChar key then some (FlatError.keyInvalidChars key)
    else none
  else none

/-- Index rendering (lines 201-204): `index_format.format(index)`, falling
back to `str(index)` when the format raises `ValueError`. -/
def renderIndex (fmt : Nat → Option String) (i : Nat) : String :=
  (fmt i).getD (Nat.repr i)

/-- Left-pad a string with zeros to the given width (no-op when already
wide enough). -/
def zeroPad (width : Nat) (s : String) : String :=
  if s.length < width then String.mk (List.replicate (width - s.length) '0') ++ s else s

/-- The default index format `INDEX_FORMAT = "\x7b:04d\x7d"` (line 61):
zero-pad the decimal representation to 4 digits; it never raises. -/
def defaultIndexFormat : Nat → Option String :=
  fun i => some (zeroPad 4 (Nat.repr i))

mutual

/-- `flatten_json` (lines 173-212).  Returns the pairs the generator
yields before any failure, and the error if one is raised.  Every `Json`
constructor falls in one of the three `isinstance` branches, so the final
`Unsupported data type` branch is unreachable in the model. -/
def flattenJson (cfg : Config) (data : Json) (parentKey : String) :
    List (String × Prim) × Option FlatError :=
  match data with
  | .obj fields => flattenFields cfg fields parentKey
  | .arr items => flattenItems cfg items parentKey 0
  | .null => ([(parentKey, Prim.null)], none)
  | .bool b => ([(parentKey, Prim.bool b)], none)
  | .num n => ([(parentKey, Prim.num n)], none)
  | .str s => ([(parentKey, Prim.str s)], none)

/-- The dict branch loop (lines 183-197): compose, validate, recurse. -/
def flattenFields (cfg : Config) (fields : List (String × Json)) (parentKey : String) :
    List (String × Prim) × Option FlatError :=
  match fields with
  | [] => ([], none)
  | (key, value) :: rest =>
    let newKey := composeKey parentKey cfg.separator key
    match validateKey cfg newKey with
    | some e => ([], some e)
    | none =>
      match flattenJson cfg value newKey with
      | (pairs, some e) => (pairs, some e)
      | (pairs, none) =>
        let r := flattenFields cfg rest parentKey
        (pairs ++ r.1, r.2)

/-- The list branch loop (lines 199-208): render the index, compose the
key (no validation here), recurse. -/
def flattenItems (cfg : Config) (items : List Json) (parentKey : String) (index : Nat) :
    List (String × Prim) × Option FlatError :=
  match items with
  | [] => ([], none)
  | item :: rest =>
    let idxKey := composeKey parentKey cfg.separator (renderIndex cfg.indexFormat index)
    match flattenJson cfg item idxKey with
    | (pairs, some e) => (pairs, some e)
    | (pairs, none) =>
      let r := flattenItems cfg rest parentKey (index + 1)
      (pairs ++ r.1, r.2)

end

/-- The top-level-array loop of `process_json_data` (lines 228-233):
each element must be a dict, and each is flattened with the same file
prefix as starting key. -/
def processItems (cfg : Config) (items : List Json) (pfx : String) :
    List (String × Prim) × Option FlatError :=
  match items with
  | [] => ([], none)
  | .obj fields :: rest =>
    match flattenJson cfg (.obj fields) pfx with
    | (pairs, some e) => (pairs, some e)
    | (pairs, none) =>
      let r := processItems cfg rest pfx
      (pairs ++ r.1, r.2)
  | _ :: _ => ([], some FlatError.nonDictElement)

/-- `process_json_data` (lines 215-235). -/
def processJsonData (cfg : Config) (data : Json) (pfx : String) :
    List (String × Prim) × Option FlatError :=
  match data with
  | .obj fields => flattenJson cfg (.obj fields) pfx
  | .arr items => processItems cfg items pfx
  | _ => ([], some FlatError.topLevelShape)

/-- The default configuration: `KEY_SEPARATOR = "_"`, the default index
format, `validate_keys=False` (lines 60-61 and 178). -/
def defaultCfg : Config :=
  { separator := "_", indexFormat := defaultIndexFormat, validateKeys := false }

/-- The default configuration with `--validate-keys` switched on. -/
def cfgValidate : Config :=
  { separator := "_", indexFormat := defaultIndexFormat, validateKeys := true }

/-- Key sanitization in `write_csv` (line 252): `key.replace(",", "_")`. -/
def sanitizeKey (k : String) : String :=
  String.mk (k.data.map (fun c => if c = ',' then '_' else c))

/-- The string `csv.writer` puts in the value column: Python `str(value)`,
except `None`, which `csv.writer` renders as the empty string. -/
def primToString : Prim → String
  | .null => ""
  | .bool true => "True"
  | .bool false => "False"
  | .num n => Int.repr n
  | .str s => s

deriving instance DecidableEq for Except

/-- `write_csv` (lines 241-262), modelled at the row level: the first
component is the content written to the file (header row first, then one
sanitized row per pair — written before the zero-row check runs), the
second is the result: the `No valid data to write` `ValueError` when the
row count is zero, otherwise the row count. -/
def writeCsv (data : List (String × Prim)) :
    List (List String) × Except FlatError Nat :=
  let rows := data.map (fun kv => [sanitizeKey kv.1, primToString kv.2])
  (CSV_HEADERS :: rows,
    if data.length = 0 then Except.error FlatError.emptyOutput else Except.ok data.length)

/-- The separator check of `parse_arguments` (line 117):
`any(c in args.separator for c in {",", "\n", "\r"})` — true exactly when
the separator contains a comma, LF or CR; the separator is rejected
(`ValueError` raised) exactly when this is true. -/
def separatorRejected (s : String) : Bool :=
  hasBadChar s

/-- The accumulation loop of `run` (lines 288-302): for each file,
`all_data.extend(rows)` consumes the `process_json_data` generator;
`list.extend` keeps the items appended before the generator raises, the
`except ValueError` handler prints and `continue`s, so each file
contributes exactly the pairs produced before its failure, and processing
continues with the remaining files. -/
def accumulateFiles (cfg : Config) (files : List (String × Json)) :
    List (String × Prim) :=
  match files with
  | [] => []
  | (pfx, data) :: rest => (processJsonData cfg data pfx).1 ++ accumulateFiles cfg rest

/-- Outcome of `run` after the per-file loop: `fatal` models `sys.exit(1)`. -/
inductive RunOutcome where
  | fatal
  | success (rowCount : Nat)
deriving DecidableEq

/-- The tail of `run` (lines 304-314): exit fatally when no data was
accumulated, otherwise write the CSV; a write failure is fatal, otherwise
report the row count.  (I/O failures live outside the embedding; the only
modelled write failure is the zero-row `ValueError`.) -/
def runModel (cfg : Config) (files : List (String × Json)) : RunOutcome :=
  let allData := accumulateFiles cfg files
  if allData.isEmpty then RunOutcome.fatal
  else
    match (writeCsv allData).2 with
    | Except.error _ => RunOutcome.fatal
    | Except.ok n => RunOutcome.success n

/-- `v` wrapped in `d` singleton objects, every field named `name`:
nesting a value at depth `d` below the starting key. -/
def nestObj (name : String) : Nat → Json → Json
  | 0, v => v
  | d + 1, v => .obj [(name, nestObj name d v)]

/-- `v` wrapped in `d` singleton arrays: nesting a value at depth `d`
below the starting key through array indices. -/
def nestArr : Nat → Json → Json
  | 0, v => v
  | d + 1, v => .arr [nestArr d v]

/-- Flattening a scalar emits exactly one pair, keyed by the accumulated
parent key. -/
lemma flattenJson_ofPrim (cfg : Config) (p : Prim) (k : String) :
    flattenJson cfg (Json.ofPrim p) k = ([(k, p)], none) := by
  cases p <;> rfl

/-- With validation off, `validateKey` accepts everything. -/
lemma validateKey_off (cfg : Config) (h : cfg.validateKeys = false) (k : String) :
    validateKey cfg k = none := by
  simp [validateKey, h]

/-- The dict loop over scalar-valued fields, when every composed key
passes validation: one pair per field, in field order. -/
lemma flattenFields_prims (cfg : Config) (pk : String) :
    ∀ (fields : List (String × Prim)),
      (∀ f ∈ fields, validateKey cfg (composeKey pk cfg.separator f.1) = none) →
      flattenFields cfg (fields.map (fun f => (f.1, Json.ofPrim f.2))) pk
        = (fields.map (fun f => (composeKey pk cfg.separator f.1, f.2)), none)
  | [], _ => rfl
  | (name, p) :: rest, h => by
    have h0 := h (name, p) (List.mem_cons_self _ _)
    have hr := flattenFields_prims cfg pk rest (fun f hf => h f (List.mem_cons_of_mem _ hf))
    simp [flattenFields, h0, flattenJson_ofPrim, hr]

/-- The list loop over scalar elements starting at index `n`: one pair
per element, keyed by the rendered index, in index order. -/
lemma flattenItems_prims (cfg : Config) (pk : String) :
    ∀ (ps : List Prim) (n : Nat),
      flattenItems cfg (ps.map Json.ofPrim) pk n
        = ((List.enumFrom n ps).map
            (fun ip => (composeKey pk cfg.separator (renderIndex cfg.indexFormat ip.1), ip.2)),
           none)
  | [], _ => rfl
  | p :: rest, n => by
    have hr := flattenItems_prims cfg pk rest (n + 1)
    simp [flattenItems, flattenJson_ofPrim, hr, List.enumFrom]

/-- A value that flattens to nothing under every key still flattens to
nothing under any depth of singleton arrays. -/
lemma flattenJson_nestArr_zero (cfg : Config) (v : Json)
    (h : ∀ k, flattenJson cfg v k = ([], none)) :
    ∀ (d : Nat) (k : String), flattenJson cfg (nestArr d v) k = ([], none)
  | 0, k => h k
  | d + 1, k => by
    have ih := flattenJson_nestArr_zero cfg v h d
    simp [nestArr, flattenJson, flattenItems, ih]

/-- A value that flattens to nothing under every key still flattens to
nothing under any depth of singleton objects, when validation is off. -/
lemma flattenJson_nestObj_zero (cfg : Config) (v : Json) (name : String)
    (hval : cfg.validateKeys = false)
    (h : ∀ k, flattenJson cfg v k = ([], none)) :
    ∀ (d : Nat) (k : String), flattenJson cfg (nestObj name d v) k = ([], none)
  | 0, k => h k
  | d + 1, k => by
    have ih := flattenJson_nestObj_zero cfg v name hval h d
    simp [nestObj, flattenJson, flattenFields, validateKey_off cfg hval, ih]

set_option maxRecDepth 8000

/-- C1: the input `\x7b"a": \x7b"b": 1, "c": [10, 20]\x7d\x7d` with file
prefix `"f"`, separator `"_"`, the default index format and key validation
disabled flattens (`process_json_data` feeding `flatten_json`) to exactly
the three leaf pairs `("f_a_b", 1)`, `("f_a_c_0000", 10)`,
`("f_a_c_0001", 20)`, in that order and no others. -/
theorem claim_C1 :
    processJsonData defaultCfg
        (.obj [("a", .obj [("b", .num 1), ("c", .arr [.num 10, .num 20])])]) "f"
      = ([("f_a_b", Prim.num 1), ("f_a_c_0000", Prim.num 10), ("f_a_c_0001", Prim.num 20)],
         none) := by
  decide

/-- C2 counterexample: with key validation enabled and the wholly default
configuration, the claim "flattening fails for every composed key whose
length exceeds 256 characters" is false: 52 nested singleton arrays around
the number 1 under prefix `"f"` flatten without any error, emitting a
single pair whose composed key (built through array-index steps, which are
never validated) is 261 characters long. -/
theorem claim_C2_counterexample :
    cfgValidate.validateKeys = true
    ∧ (flattenJson cfgValidate (nestArr 52 (Json.num 1)) "f").2 = none
    ∧ (flattenJson cfgValidate (nestArr 52 (Json.num 1)) "f").1.length = 1
    ∧ 256 < ((flattenJson cfgValidate (nestArr 52 (Json.num 1)) "f").1.headD
        ("", Prim.null)).1.length := by
  decide

/-- C2 (amended): with key validation enabled and the maximum key length
at its default of 256, flattening fails with a key-validation error at an
object-field step whose composed key exceeds 256 characters, and at an
object-field step whose composed key contains a comma, carriage return or
line feed regardless of its length (keys composed at array-index steps are
not validated); with validation disabled such keys are not rejected during
flattening, and commas in keys are replaced by underscores at write
time. -/
theorem claim_C2 :
    (∀ cfg k name v fields, cfg.validateKeys = true →
        MAX_KEY_LENGTH < (composeKey k cfg.separator name).length →
        flattenJson cfg (.obj ((name, v) :: fields)) k
          = ([], some (FlatError.keyTooLong (composeKey k cfg.separator name))))
    ∧ (∀ cfg k name v fields, cfg.validateKeys = true →
        (composeKey k cfg.separator name).length ≤ MAX_KEY_LENGTH →
        hasBadChar (composeKey k cfg.separator name) = true →
        flattenJson cfg (.obj ((name, v) :: fields)) k
          = ([], some (FlatError.keyInvalidChars (composeKey k cfg.separator name))))
    ∧ (∀ cfg k name p, cfg.validateKeys = false →
        flattenJson cfg (.obj [(name, Json.ofPrim p)]) k
          = ([(composeKey k cfg.separator name, p)], none))
    ∧ (∀ k p, writeCsv [(k, p)]
        = ([CSV_HEADERS, [sanitizeKey k, primToString p]], Except.ok 1))
    ∧ sanitizeKey "f_a,b" = "f_a_b" := by
  refine ⟨?_, ?_, ?_, ?_, by decide⟩
  · intro cfg k name v fields hval hlen
    have hv : validateKey cfg (composeKey k cfg.separator name)
        = some (FlatError.keyTooLong (composeKey k cfg.separator name)) := by
      simp [validateKey, hval, hlen]
    simp [flattenJson, flattenFields, hv]
  · intro cfg k name v fields hval hlen hbad
    have hv : validateKey cfg (composeKey k cfg.separator name)
        = some (FlatError.keyInvalidChars (composeKey k cfg.separator name)) := by
      simp [validateKey, hval, Nat.not_lt.mpr hlen, hbad]
    simp [flattenJson, flattenFields, hv]
  · intro cfg k name p hval
    simp [flattenJson, flattenFields, validateKey_off cfg hval, flattenJson_ofPrim]
  · intro k p
    rfl

/-- C2 witness: with validation enabled, a 300-character field name under
prefix `"f"` composes a key longer than 256 and flattening rejects it. -/
theorem claim_C2_witness :
    cfgValidate.validateKeys = true
    ∧ MAX_KEY_LENGTH
        < (composeKey "f" cfgValidate.separator (String.mk (List.replicate 300 'a'))).length
    ∧ flattenJson cfgValidate (.obj [(String.mk (List.replicate 300 'a'), Json.num 1)]) "f"
        = ([], some (FlatError.keyTooLong
            (composeKey "f" cfgValidate.separator (String.mk (List.replicate 300 'a'))))) :=
  ⟨rfl, by decide,
    claim_C2.1 cfgValidate "f" (String.mk (List.replicate 300 'a')) (Json.num 1) [] rfl
      (by decide)⟩

/-- C3: evaluation of the separator check of `parse_arguments` at the
failing input.  The check rejects separators containing a comma, carriage
return or line feed (so a comma separator is rejected), but it accepts the
empty separator — `any(c in "" for c in ...)` is false — although the
claim, the spec, and the code's own error message ("Separator cannot be
empty, a comma, or a newline!") all say the empty separator is
rejected. -/
theorem claim_C3 :
    separatorRejected "" = false
    ∧ separatorRejected "," = true
    ∧ separatorRejected "a,b" = true
    ∧ separatorRejected "\r" = true
    ∧ separatorRejected "\n" = true
    ∧ separatorRejected "_" = false := by
  decide

/-- C4: an array element at zero-based index `i` gets the key segment
`renderIndex fmt i` — the configured index format applied to `i`, falling
back to the plain decimal representation whenever the format fails; the
default format zero-pads to 4 digits (3 renders as "0003", wider indices
render unpadded). -/
theorem claim_C4 :
    (∀ fmt i, fmt i = none → renderIndex fmt i = Nat.repr i)
    ∧ renderIndex defaultIndexFormat 3 = "0003"
    ∧ renderIndex defaultIndexFormat 0 = "0000"
    ∧ renderIndex defaultIndexFormat 12345 = "12345"
    ∧ (∀ cfg pk (ps : List Prim),
        flattenJson cfg (.arr (ps.map Json.ofPrim)) pk
          = ((List.enumFrom 0 ps).map
              (fun ip => (composeKey pk cfg.separator (renderIndex cfg.indexFormat ip.1),
                          ip.2)),
             none)) := by
  refine ⟨?_, by decide, by decide, by decide, ?_⟩
  · intro fmt i h
    simp [renderIndex, h]
  · intro cfg pk ps
    simp [flattenJson, flattenItems_prims]

/-- C4 witness: a format that always fails to render falls back to the
decimal representation. -/
theorem claim_C4_witness : renderIndex (fun _ => none) 7 = "7" :=
  claim_C4.1 (fun _ => none) 7 rfl

/-- A concrete input file whose flattening fails midway: a top-level array
whose first element is an object and whose second element is the number 5
(not an object). -/
def fileBad : Json := .arr [.obj [("x", .num 1)], .num 5]

/-- C5 counterexample: processing `[\x7b"x": 1\x7d, 5]` under prefix `"f"`
fails (the second element is not an object), yet the accumulated output of
a run over that single file is `[("f_x", 1)]`, not the empty list: the
pairs the generator yielded before the failure were already appended by
`all_data.extend(rows)`, so a failed file does not contribute zero
rows. -/
theorem claim_C5_counterexample :
    (processJsonData defaultCfg fileBad "f").2 = some FlatError.nonDictElement
    ∧ accumulateFiles defaultCfg [("f", fileBad)] = [("f_x", Prim.num 1)] := by
  decide

/-- C5 (amended): if flattening one input file fails, the pairs that file
produced before the failure remain in the accumulated output and the rest
of that file is skipped; processing continues with the remaining files;
the run is fatal exactly when no rows at all were accumulated (per-file
failures alone never abort the run; within the embedding the only modelled
final-write failure is the zero-row case, which the `run` guard makes
unreachable). -/
theorem claim_C5 :
    (∀ cfg pfx data rest e,
        (processJsonData cfg data pfx).2 = some e →
        accumulateFiles cfg ((pfx, data) :: rest)
          = (processJsonData cfg data pfx).1 ++ accumulateFiles cfg rest)
    ∧ (∀ cfg files, runModel cfg files = RunOutcome.fatal
        ↔ accumulateFiles cfg files = []) := by
  constructor
  · intro cfg pfx data rest e _
    rfl
  · intro cfg files
    cases h : accumulateFiles cfg files with
    | nil => simp [runModel, h]
    | cons x xs => simp [runModel, h, writeCsv]

/-- C5 witness: the failing file contributes exactly its pre-failure pairs
and the next file is still processed. -/
theorem claim_C5_witness :
    (processJsonData defaultCfg fileBad "f").2 = some FlatError.nonDictElement
    ∧ accumulateFiles defaultCfg [("f", fileBad), ("g", .obj [("y", .null)])]
        = (processJsonData defaultCfg fileBad "f").1
          ++ accumulateFiles defaultCfg [("g", .obj [("y", .null)])] :=
  ⟨by decide,
    claim_C5.1 defaultCfg "f" fileBad [("g", .obj [("y", .null)])]
      FlatError.nonDictElement (by decide)⟩

/-- C6: the top-level input `[\x7b"x": true\x7d, \x7b"x": false\x7d]` with
file prefix `"f"` and the default configuration yields exactly
`("f_x", True)` then `("f_x", False)`: each element of a top-level array
of objects is flattened with the same file prefix as starting key, no
record index is inserted, so overlapping field names give duplicate key
paths. -/
theorem claim_C6 :
    processJsonData defaultCfg (.arr [.obj [("x", .bool true)], .obj [("x", .bool false)]]) "f"
      = ([("f_x", Prim.bool true), ("f_x", Prim.bool false)], none) := by
  decide

/-- C7: composing with an empty parent key gives the child identifier
alone, otherwise parent ++ separator ++ child; consequently a flat object
(scalar values only) under a non-empty prefix, with every composed key
passing validation (vacuously so in the default validation-off
configuration), flattens to one pair per field whose key is
prefix ++ separator ++ fieldname, with row count equal to the number of
fields. -/
theorem claim_C7 :
    (∀ s c, composeKey "" s c = c)
    ∧ (∀ p s c, p ≠ "" → composeKey p s c = p ++ s ++ c)
    ∧ (∀ cfg pk (fields : List (String × Prim)), pk ≠ "" →
        (∀ f ∈ fields, validateKey cfg (pk ++ cfg.separator ++ f.1) = none) →
        flattenJson cfg (.obj (fields.map (fun f => (f.1, Json.ofPrim f.2)))) pk
          = (fields.map (fun f => (pk ++ cfg.separator ++ f.1, f.2)), none)
        ∧ (flattenJson cfg (.obj (fields.map (fun f => (f.1, Json.ofPrim f.2)))) pk).1.length
            = fields.length) := by
  refine ⟨fun s c => rfl, ?_, ?_⟩
  · intro p s c hp
    simp [composeKey, hp]
  · intro cfg pk fields hpk hval
    have hc : ∀ c, composeKey pk cfg.separator c = pk ++ cfg.separator ++ c := by
      intro c
      simp [composeKey, hpk]
    have hval' : ∀ f ∈ fields, validateKey cfg (composeKey pk cfg.separator f.1) = none := by
      intro f hf
      rw [hc]
      exact hval f hf
    have hmain : flattenJson cfg (.obj (fields.map (fun f => (f.1, Json.ofPrim f.2)))) pk
        = (fields.map (fun f => (pk ++ cfg.separator ++ f.1, f.2)), none) := by
      have := flattenFields_prims cfg pk fields hval'
      simp only [flattenJson, this]
      simp [hc]
    exact ⟨hmain, by simp [hmain]⟩

/-- C7 witness: a two-field flat object under prefix `"f"` in the default
configuration. -/
theorem claim_C7_witness :
    ("f" : String) ≠ ""
    ∧ flattenJson defaultCfg
        (.obj [("x", Json.ofPrim (Prim.num 1)), ("y", Json.ofPrim (Prim.bool true))]) "f"
      = ([("f" ++ defaultCfg.separator ++ "x", Prim.num 1),
          ("f" ++ defaultCfg.separator ++ "y", Prim.bool true)], none) :=
  ⟨by decide,
    (claim_C7.2.2 defaultCfg "f" [("x", Prim.num 1), ("y", Prim.bool true)]
      (by decide) (by decide)).1⟩

/-- C8: an empty object or empty array contributes zero leaf pairs,
directly under any key, at any depth of array nesting (unconditionally),
and at any depth of object nesting when validation is off; a top-level
scalar flattened with an empty parent key emits exactly one pair whose key
is the empty string. -/
theorem claim_C8 :
    ∀ cfg pk,
      flattenJson cfg (.obj []) pk = ([], none)
      ∧ flattenJson cfg (.arr []) pk = ([], none)
      ∧ (∀ p, flattenJson cfg (Json.ofPrim p) "" = ([("", p)], none))
      ∧ (∀ d, flattenJson cfg (nestArr d (.obj [])) pk = ([], none))
      ∧ (∀ d, flattenJson cfg (nestArr d (.arr [])) pk = ([], none))
      ∧ (cfg.validateKeys = false →
          ∀ d name, flattenJson cfg (nestObj name d (.obj [])) pk = ([], none)
            ∧ flattenJson cfg (nestObj name d (.arr [])) pk = ([], none)) := by
  intro cfg pk
  refine ⟨rfl, rfl, fun p => flattenJson_ofPrim cfg p "", ?_, ?_, ?_⟩
  · intro d
    exact flattenJson_nestArr_zero cfg (.obj []) (fun k => rfl) d pk
  · intro d
    exact flattenJson_nestArr_zero cfg (.arr []) (fun k => rfl) d pk
  · intro hval d name
    exact ⟨flattenJson_nestObj_zero cfg (.obj []) name hval (fun k => rfl) d pk,
           flattenJson_nestObj_zero cfg (.arr []) name hval (fun k => rfl) d pk⟩

/-- C8 witness: empty containers nested three levels down contribute
nothing in the default configuration. -/
theorem claim_C8_witness :
    defaultCfg.validateKeys = false
    ∧ flattenJson defaultCfg (nestObj "n" 3 (.arr [])) "f" = ([], none)
    ∧ flattenJson defaultCfg (nestArr 3 (.obj [])) "f" = ([], none) :=
  ⟨rfl, ((claim_C8 defaultCfg "f").2.2.2.2.2 rfl 3 "n").2,
    (claim_C8 defaultCfg "f").2.2.2.1 3⟩

/-- C9: writing an empty sequence of leaf pairs produces a header-only
file and fails with the zero-rows error after attempting the write, and
on success the returned row count is always at least 1. -/
theorem claim_C9 :
    writeCsv [] = ([CSV_HEADERS], Except.error FlatError.emptyOutput)
    ∧ (∀ data n, (writeCsv data).2 = Except.ok n → 1 ≤ n) := by
  refine ⟨rfl, ?_⟩
  intro data n h
  by_cases hd : data.length = 0
  · simp [writeCsv, hd] at h
  · simp [writeCsv, hd] at h
    omega

/-- C9 witness: a one-pair write succeeds with row count 1. -/
theorem claim_C9_witness :
    (writeCsv [("k", Prim.num 1)]).2 = Except.ok 1 ∧ 1 ≤ 1 :=
  ⟨rfl, claim_C9.2 [("k", Prim.num 1)] 1 rfl⟩

/-- C10: with key validation enabled, the array-index step performs no
check on the key it composes: flattening a singleton array hands the
composed index key straight to the recursion, and a scalar element is
emitted under that key with no error, whatever the key's length or
characters. -/
theorem claim_C10 :
    (∀ cfg pk e, cfg.validateKeys = true →
        flattenJson cfg (.arr [e]) pk
          = flattenJson cfg e (composeKey pk cfg.separator (renderIndex cfg.indexFormat 0)))
    ∧ (∀ cfg pk p, cfg.validateKeys = true →
        flattenJson cfg (.arr [Json.ofPrim p]) pk
          = ([(composeKey pk cfg.separator (renderIndex cfg.indexFormat 0), p)], none)) := by
  constructor
  · intro cfg pk e _
    cases h : flattenJson cfg e (composeKey pk cfg.separator (renderIndex cfg.indexFormat 0)) with
    | mk pairs err =>
      cases err <;> simp [flattenJson, flattenItems, h]
  · intro cfg pk p _
    simp [flattenJson, flattenItems, flattenJson_ofPrim]

/-- A validation-enabled configuration whose index format renders every
index as 300 commas (the Python format string could be e.g. 300 literal
commas), making the composed array key both overlong and
comma-ridden. -/
def cfgC10 : Config :=
  { separator := "_", indexFormat := fun _ => some (String.mk (List.replicate 300 ',')),
    validateKeys := true }

/-- C10 witness: with validation enabled, an index segment of 300 commas
composes a key longer than 256 containing commas, and the scalar element
is still emitted with no validation error. -/
theorem claim_C10_witness :
    cfgC10.validateKeys = true
    ∧ flattenJson cfgC10 (.arr [Json.ofPrim (Prim.num 7)]) "f"
        = ([(composeKey "f" cfgC10.separator (renderIndex cfgC10.indexFormat 0), Prim.num 7)],
           none)
    ∧ MAX_KEY_LENGTH < (composeKey "f" cfgC10.separator (renderIndex cfgC10.indexFormat 0)).length
    ∧ hasBadChar (composeKey "f" cfgC10.separator (renderIndex cfgC10.indexFormat 0)) = true :=
  ⟨rfl, claim_C10.2 cfgC10 "f" (Prim.num 7) rfl, by decide, by decide⟩
